import Mathlib

/-!
Verification development for the breeze-cli interactive directory browser.

The Rust sources embedded here are:
* src/fs/listing.rs      (list_directory)
* src/core/explorer.rs   (Explorer: new / ls / cd / cwd)
* src/error.rs           (ExplorerError)
* src/main.rs            (App: the key-driven navigation and filter state machine)

Modelling conventions:
* The filesystem is an explicit parameter (structure FS below): canonicalization,
  directory enumeration and path-parent computation are functions that may fail
  (Option), standing for the corresponding std::fs / std::path operations.
* The third-party fuzzy matcher (nucleo_matcher) is a black box in the spec and
  is modelled as an abstract function MatchFn from (filter string, candidate
  name) to an optional (score, matched character indices) pair.  Pattern::parse
  is a pure function of the filter string, so the stored pattern is modelled as
  the string it was parsed from.
* Rust's stable Vec::sort_by is modelled by List.insertionSort, which is stable
  for a total preorder: the output of any stable sort is uniquely determined by
  the comparator and the input order, so this is exact.
* The ratatui ListState selection used by src/main.rs is modelled by its
  published semantics (stable across the 0.27-0.29 releases that provide the
  methods the source calls): select_first sets Some 0, select_last sets
  Some usize::MAX, select_next saturating-adds 1 (0 from None), select_previous
  saturating-subtracts 1 (usize::MAX from None), and the List widget's render
  clamps an out-of-bounds selection to the last index when the item list is
  non-empty and resets the selection to None when the item list is empty.  The
  render step runs once per loop iteration before the next key is read
  (App::run).
* usize is modelled as Nat; the only place its width matters is the saturating
  selection arithmetic, made explicit through the USIZE_MAX constant.
* A Rust panic (out-of-bounds Vec indexing) is modelled by returning none from
  the enclosing transition function.
-/

namespace Breeze

/-- Maximum value of the 64-bit usize type of the compilation target. -/
def USIZE_MAX : Nat := 2 ^ 64 - 1

/-- ObjectType from src/main.rs: classification of a directory child. -/
inductive ObjectType
  | File
  | Directory
deriving DecidableEq, Repr

/-- The struct named Path in src/main.rs: one displayed entry, with the name
shown (value), its kind, and the fuzzy-match character indices. -/
structure Entry where
  value : String
  kind : ObjectType
  matchIndices : List Nat
deriving DecidableEq, Repr

/-- The ambient filesystem and path syntax, as seen through the std::fs and
std::path operations the sources call.  canon models Path::canonicalize
(None is an io::Error), children models fs::read_dir giving the true child
set of a directory in unspecified order, each child classified by is_dir as
in ObjectType::from (None is an io::Error), and parent models Path::parent. -/
structure FS where
  canon : String → Option String
  children : String → Option (List (String × ObjectType))
  parent : String → Option String

/-- ExplorerError from src/error.rs.  All failures produced by the modelled
operations are Io failures; the other two constructors are kept for
fidelity to the error taxonomy. -/
inductive ExplorerError
  | ioError
  | invalidDirectory (path : String)
  | permissionDenied (path : String)
deriving DecidableEq, Repr

instance {e a : Type _} [DecidableEq e] [DecidableEq a] :
    DecidableEq (Except e a) := fun x y =>
  match x, y with
  | .error u, .error v =>
    if h : u = v then .isTrue (by rw [h]) else .isFalse (fun hh => h (by cases hh; rfl))
  | .ok u, .ok v =>
    if h : u = v then .isTrue (by rw [h]) else .isFalse (fun hh => h (by cases hh; rfl))
  | .error _, .ok _ => .isFalse (fun hh => by cases hh)
  | .ok _, .error _ => .isFalse (fun hh => by cases hh)

/-- Lexicographic non-strict order on character sequences, comparing scalar
values.  OsString comparison in Rust is byte-wise on the UTF-8 encoding,
and UTF-8 byte order coincides with scalar-value order. -/
def listLeCh : List Char → List Char → Bool
  | [], _ => true
  | _ :: _, [] => false
  | a :: as, b :: bs =>
    if a.toNat < b.toNat then true
    else if b.toNat < a.toNat then false
    else listLeCh as bs

/-- Lexicographic strict order on character sequences. -/
def listLtCh : List Char → List Char → Bool
  | [], [] => false
  | [], _ :: _ => true
  | _ :: _, [] => false
  | a :: as, b :: bs =>
    if a.toNat < b.toNat then true
    else if b.toNat < a.toNat then false
    else listLtCh as bs

/-- Byte-wise (equivalently scalar-value-wise) non-strict order on names. -/
def strLe (a b : String) : Bool := listLeCh a.data b.data

/-- Byte-wise strict order on names. -/
def strLt (a b : String) : Bool := listLtCh a.data b.data

/-- Ordering on directory children by name, as in
files.sort_by(|a, b| a.file_name().cmp(&b.file_name())) in src/fs/listing.rs. -/
def nameLe (a b : String × ObjectType) : Prop := strLe a.1 b.1 = true

instance : DecidableRel nameLe := fun a b =>
  inferInstanceAs (Decidable (strLe a.1 b.1 = true))

/-- The stable by-name sort performed by list_directory. -/
def sortByName (es : List (String × ObjectType)) : List (String × ObjectType) :=
  List.insertionSort nameLe es

/-- list_directory from src/fs/listing.rs: enumerate the children of a path and
sort them by name. -/
def listDirectory (fs : FS) (p : String) :
    Except ExplorerError (List (String × ObjectType)) :=
  match fs.children p with
  | none => .error .ioError
  | some es => .ok (sortByName es)

/-- Explorer from src/core/explorer.rs: owns the current directory path. -/
structure Explorer where
  current_dir : String
deriving DecidableEq, Repr

/-- Explorer::ls. -/
def Explorer.ls (fs : FS) (ex : Explorer) :
    Except ExplorerError (List (String × ObjectType)) :=
  listDirectory fs ex.current_dir

/-- Explorer::cd: self.current_dir = directory.canonicalize()?; self.ls().
The owned path is replaced as soon as canonicalization succeeds, before the
listing of the new path is attempted; the pair returned is (explorer after
the call, returned Result). -/
def Explorer.cd (fs : FS) (ex : Explorer) (p : String) :
    Explorer × Except ExplorerError (List (String × ObjectType)) :=
  match fs.canon p with
  | none => (ex, .error .ioError)
  | some cp => (⟨cp⟩, Explorer.ls fs ⟨cp⟩)

/-- The abstract fuzzy-match primitive: from the current filter string and a
candidate name to an optional (score, matched indices) pair.  It stands for
Pattern::parse followed by Pattern::indices with the shared Matcher. -/
def MatchFn := String → String → Option (Nat × List Nat)

/-- Ordering used by new_items.sort_by(|a, b| b.3.cmp(&a.3)): descending by
the score component of (value, kind, indices, score). -/
def scoreDesc (a b : String × ObjectType × List Nat × Nat) : Prop :=
  b.2.2.2 ≤ a.2.2.2

instance : DecidableRel scoreDesc := fun a b => Nat.decLe _ _

/-- The filtering loop shared by App::filter_paths and
App::remove_last_char_from_filter: match every candidate, drop the misses,
stable-sort the survivors by descending score, and rebuild entries carrying
the matched indices. -/
def runFilter (M : MatchFn) (q : String) (items : List Entry) : List Entry :=
  let scored := items.filterMap fun e =>
    (M q e.value).map fun r => (e.value, e.kind, r.2, r.1)
  let sorted := List.insertionSort scoreDesc scored
  sorted.map fun t => ⟨t.1, t.2.1, t.2.2.1⟩

/-- PathList::from_iter over directory entries: names and kinds carried over,
match_indices empty.  (The accompanying ListState::default resets the
selection; the callers below account for that.) -/
def fromIter (es : List (String × ObjectType)) : List Entry :=
  es.map fun p => ⟨p.1, p.2, []⟩

/-- Key events, following the match arms of App::handle_key.  char covers
KeyCode::Char (with the dedicated Char Q quit arm resolved inside handleKey),
and other covers every KeyCode the source ignores. -/
inductive Key
  | char (c : Char)
  | esc
  | down
  | up
  | home
  | endKey
  | right
  | left
  | enter
  | backspace
  | other
deriving DecidableEq, Repr

/-- One record of the accumulating session error log built in App::run:
the error together with the context message naming the key pressed and the
selected entry (or the sentinel string for no selection). -/
structure LogEntry where
  key : Key
  selected : String
  err : ExplorerError
deriving DecidableEq, Repr

/-- The App struct of src/main.rs (minus the render-only handle and matcher
scratch state).  items and sel model path_list.items and
path_list.state.selected(); currentDir models explorer.current_dir;
outCwd, outCommand, outItems model the Output record; errLog models the
unhandled vector accumulated in App::run. -/
structure AppState where
  shouldExit : Bool
  items : List Entry
  sel : Option Nat
  currentDir : String
  outCwd : String
  outCommand : String
  outItems : List String
  filterString : String
  pattern : Option String
  errLog : List LogEntry
deriving DecidableEq, Repr

/-- ListState::select_first: selection becomes Some 0 unconditionally. -/
def selectFirst (st : AppState) : AppState := { st with sel := some 0 }

/-- ListState::select_last: selection becomes Some usize::MAX; the render
pass clamps it to the real last index. -/
def selectLast (st : AppState) : AppState := { st with sel := some USIZE_MAX }

/-- ListState::select_next: saturating successor, 0 from None. -/
def selectNext (st : AppState) : AppState :=
  { st with sel := some (match st.sel with
      | none => 0
      | some i => min (i + 1) USIZE_MAX) }

/-- ListState::select_previous: saturating predecessor, usize::MAX from None. -/
def selectPrevious (st : AppState) : AppState :=
  { st with sel := some (match st.sel with
      | none => USIZE_MAX
      | some i => i - 1) }

/-- The state effect of terminal.draw at the top of each App::run iteration:
the List widget render resets the selection to None when the item list is
empty, and otherwise clamps an out-of-bounds selection to the last index. -/
def draw (st : AppState) : AppState :=
  match st.items with
  | [] => { st with sel := none }
  | _ :: _ => { st with sel := st.sel.map fun s => min s (st.items.length - 1) }

/-- App::clear_filter: reset the query and pattern, replace the list by the
full listing when it succeeds (silently keeping the old list on error), and
select the first entry. -/
def clearFilter (fs : FS) (st : AppState) : AppState :=
  let st1 := { st with filterString := "", pattern := none }
  let st2 := match listDirectory fs st.currentDir with
    | .ok es => { st1 with items := fromIter es, sel := none }
    | .error _ => st1
  { st2 with sel := some 0 }

/-- App::filter_paths: push the character onto the query, re-match the
currently displayed items (not the full listing) against the rebuilt
pattern, store the pattern, and select the first entry. -/
def filterPaths (M : MatchFn) (c : Char) (st : AppState) : AppState :=
  let q := st.filterString.push c
  { st with filterString := q, items := runFilter M q st.items,
            pattern := some q, sel := some 0 }

/-- String::pop: drop the final character (identity on an empty string). -/
def popLast (s : String) : String := ⟨s.data.dropLast⟩

/-- App::remove_last_char_from_filter: pop the query; with an empty result,
restore the full listing (when it can be fetched) and clear the pattern;
otherwise re-fetch the full listing, re-match it against the shortened query
(keeping the old list if the fetch fails) and store the pattern; in every
case select the first entry. -/
def removeLastCharFromFilter (fs : FS) (M : MatchFn) (st : AppState) : AppState :=
  let q := popLast st.filterString
  let st1 :=
    if q.isEmpty then
      let st2 := match listDirectory fs st.currentDir with
        | .ok es => { st with items := fromIter es, sel := none }
        | .error _ => st
      { st2 with filterString := q, pattern := none }
    else
      let st2 := match listDirectory fs st.currentDir with
        | .ok es => { st with items := runFilter M q (fromIter es), sel := none }
        | .error _ => st
      { st2 with filterString := q, pattern := some q }
  { st1 with sel := some 0 }

/-- App::enter_directory.  No selection is a no-op; the unguarded
items indexing panics when the selection is out of bounds (modelled by
none); a File selection is a no-op; a Directory selection goes through
Explorer::cd, which commits the canonicalized path before listing, and the
path list is replaced (resetting the selection) only when cd succeeds. -/
def enterDirectory (fs : FS) (st : AppState) :
    Option (AppState × Option ExplorerError) :=
  match st.sel with
  | none => some (st, none)
  | some i =>
    match st.items.get? i with
    | none => none
    | some e =>
      match e.kind with
      | .File => some (st, none)
      | .Directory =>
        let full := st.currentDir ++ "/" ++ e.value
        match Explorer.cd fs ⟨st.currentDir⟩ full with
        | (ex, .ok es) =>
          some ({ st with currentDir := ex.current_dir,
                          items := fromIter es, sel := none }, none)
        | (ex, .error err) =>
          some ({ st with currentDir := ex.current_dir }, some err)

/-- App::change_to_parent: cd to the parent of the current directory, falling
back to the current directory itself at the root; the path list is replaced
(resetting the selection) only when cd succeeds. -/
def changeToParent (fs : FS) (st : AppState) : AppState × Option ExplorerError :=
  let par := (fs.parent st.currentDir).getD st.currentDir
  match Explorer.cd fs ⟨st.currentDir⟩ par with
  | (ex, .ok es) =>
    ({ st with currentDir := ex.current_dir, items := fromIter es, sel := none }, none)
  | (ex, .error err) =>
    ({ st with currentDir := ex.current_dir }, some err)

/-- App::update_command: with no selection, nothing happens; otherwise the
unguarded items indexing panics when the selection is out of bounds
(modelled by none), and on success the command and item list of the Output
are set and the quit flag raised. -/
def updateCommand (command : String) (quit : Bool) (st : AppState) :
    Option AppState :=
  match st.sel with
  | none => some st
  | some i =>
    match st.items.get? i with
    | none => none
    | some e =>
      some { st with outCommand := command,
                     outItems := [st.currentDir ++ "/" ++ e.value],
                     shouldExit := if quit then true else st.shouldExit }

/-- App::handle_key: the key-dispatch match.  The pair carries the state after
the call and the Result value returned to App::run (some err for Err);
none models a panic inside the handler.  On the Right and Left arms
clear_filter runs only when the navigation succeeded, because the source
propagates the error with the question-mark operator first. -/
def handleKey (fs : FS) (M : MatchFn) (k : Key) (st : AppState) :
    Option (AppState × Option ExplorerError) :=
  match k with
  | .char c =>
    if c = 'Q' then some ({ st with shouldExit := true }, none)
    else some (filterPaths M c st, none)
  | .esc => some (clearFilter fs st, none)
  | .down => some (selectNext st, none)
  | .up => some (selectPrevious st, none)
  | .home => some (selectFirst st, none)
  | .endKey => some (selectLast st, none)
  | .right =>
    match enterDirectory fs st with
    | none => none
    | some (st1, none) => some (clearFilter fs st1, none)
    | some (st1, some err) => some (st1, some err)
  | .left =>
    match changeToParent fs st with
    | (st1, none) => some (clearFilter fs st1, none)
    | (st1, some err) => some (st1, some err)
  | .enter =>
    match updateCommand "do-thing" true st with
    | none => none
    | some st1 => some (st1, none)
  | .backspace => some (removeLastCharFromFilter fs M st, none)
  | .other => some (st, none)

/-- The selected-entry name used when App::run logs a failed transition:
the sentinel for no selection, and otherwise an unguarded items indexing
(none models the panic). -/
def selNameAccess (st : AppState) : Option String :=
  match st.sel with
  | none => some "nothing"
  | some i => (st.items.get? i).map Entry.value

/-- One iteration of the App::run loop: render (clamping the selection), then
handle the key; a returned error is appended to the session log together
with the key and the name selected in the post-transition state, and the
loop continues.  none models a panic. -/
def loopStep (fs : FS) (M : MatchFn) (k : Key) (st0 : AppState) :
    Option AppState :=
  let st := draw st0
  match handleKey fs M k st with
  | none => none
  | some (st1, none) => some st1
  | some (st1, some err) =>
    match selNameAccess st1 with
    | none => none
    | some n => some { st1 with errLog := st1.errLog ++ [⟨k, n, err⟩] }

/-- The state as observed at the next render after a key: loopStep followed
by the clamping draw of the following iteration. -/
def afterKey (fs : FS) (M : MatchFn) (k : Key) (st : AppState) :
    Option AppState :=
  (loopStep fs M k st).map draw

/-- Session start (fn main): canonicalize the requested directory, build the
Explorer, take the initial listing, and construct the App with an empty
query, the no-op command and no selection.  none models the fatal startup
error paths. -/
def sessionStart (fs : FS) (d : String) : Option AppState :=
  match fs.canon d with
  | none => none
  | some cd =>
    match listDirectory fs cd with
    | .error _ => none
    | .ok es => some {
        shouldExit := false
        items := fromIter es
        sel := none
        currentDir := cd
        outCwd := cd
        outCommand := "no-op"
        outItems := []
        filterString := ""
        pattern := none
        errLog := [] }

/-- States reachable from a given state by the App::run loop: zero or more
loopStep iterations, each taken only while should_exit is still unset and
none of them panicking. -/
inductive Reachable (fs : FS) (M : MatchFn) : AppState → AppState → Prop
  | refl (st : AppState) : Reachable fs M st st
  | step {a b c : AppState} (k : Key) : Reachable fs M a b →
      b.shouldExit = false → loopStep fs M k b = some c → Reachable fs M a c

/-- Whether the transition for a key, taken from a given (already rendered)
state, raises a filesystem error somewhere inside it: Esc and Backspace
call Explorer::ls on the current directory; the Right arm calls
Explorer::cd on the selected directory entry; the Left arm calls
Explorer::cd on the parent.  (A successful Right or Left cd is followed by
clear_filter, whose ls re-reads the directory the cd just listed and hence
cannot newly fail against a fixed filesystem.) -/
def raisesFsError (fs : FS) (k : Key) (st : AppState) : Prop :=
  match k with
  | .esc => fs.children st.currentDir = none
  | .backspace => fs.children st.currentDir = none
  | .right => ∃ i e, st.sel = some i ∧ st.items.get? i = some e ∧
      e.kind = .Directory ∧
      ∃ err, (Explorer.cd fs ⟨st.currentDir⟩ (st.currentDir ++ "/" ++ e.value)).2
        = .error err
  | .left => ∃ err,
      (Explorer.cd fs ⟨st.currentDir⟩
        ((fs.parent st.currentDir).getD st.currentDir)).2 = .error err
  | _ => False

/-- Claim C1 as stated: a printable-character transition from a non-empty
query recomputes from the full unfiltered listing, so filtering with the
extended query after filtering with the old one equals filtering the full
listing directly with the extended query. -/
def ClaimOne : Prop :=
  ∀ (M : MatchFn) (st : AppState) (c : Char) (full : List Entry),
    st.filterString ≠ "" → st.items = runFilter M st.filterString full →
    (filterPaths M c st).items = runFilter M (st.filterString.push c) full

/-- Claim C2 as stated: whenever Explorer::cd returns an error, the owned
current directory is unchanged. -/
def ClaimTwo : Prop :=
  ∀ (fs : FS) (ex : Explorer) (p : String) (e : ExplorerError),
    (Explorer.cd fs ex p).2 = .error e → (Explorer.cd fs ex p).1 = ex

/-- Claim C3 as stated: the Right key with a File selected is a complete
no-op on directory, query, entry list and selection. -/
def ClaimThree : Prop :=
  ∀ (fs : FS) (M : MatchFn) (st : AppState) (i : Nat) (e : Entry)
    (st1 : AppState),
    st.sel = some i → st.items.get? i = some e → e.kind = .File →
    handleKey fs M .right st = some (st1, none) →
    st1.currentDir = st.currentDir ∧ st1.filterString = st.filterString ∧
      st1.items = st.items ∧ st1.sel = st.sel

/-- Claim C4 as stated: in every state reachable from session start the
selection is None exactly when the entry list is empty, and a present
selection is a valid index. -/
def ClaimFour : Prop :=
  ∀ (fs : FS) (M : MatchFn) (d : String) (st0 st : AppState),
    sessionStart fs d = some st0 → Reachable fs M st0 st →
    ((st.sel = none ↔ st.items = []) ∧ ∀ i, st.sel = some i → i < st.items.length)

/-- Claim C5 as stated, on the selection as observed at the next render:
next and previous move one step clamped with no wraparound, both behave
as select_first from a None selection, and Down then Up from index 0
returns to 0. -/
def ClaimFive : Prop :=
  ∀ (fs : FS) (M : MatchFn) (st : AppState), st.items ≠ [] →
    (∀ i, st.sel = some i → i < st.items.length →
      ∃ st2, afterKey fs M .down st = some st2 ∧
        st2.sel = some (min (i + 1) (st.items.length - 1))) ∧
    (∀ i, st.sel = some i → i < st.items.length →
      ∃ st2, afterKey fs M .up st = some st2 ∧ st2.sel = some (i - 1)) ∧
    (st.sel = none →
      (∃ st2, afterKey fs M .down st = some st2 ∧ st2.sel = some 0) ∧
      (∃ st2, afterKey fs M .up st = some st2 ∧ st2.sel = some 0)) ∧
    (st.sel = some 0 → ∀ st2, afterKey fs M .down st = some st2 →
      ∃ st3, afterKey fs M .up st2 = some st3 ∧ st3.sel = some 0)

/-- Claim C6 as stated: every filesystem error raised during a key-triggered
transition is appended to the session error log, paired with the key and a
selected-entry name, and the loop continues. -/
def ClaimSix : Prop :=
  ∀ (fs : FS) (M : MatchFn) (k : Key) (st st1 : AppState),
    st.shouldExit = false → raisesFsError fs k (draw st) →
    loopStep fs M k st = some st1 →
    ∃ n err, st1.errLog = st.errLog ++ [⟨k, n, err⟩]

/-- Claim C9 as stated: after a printable-character transition that filters
the list down to zero entries, the selection is Some 0 on the empty list
and a following Commit key press performs the unguarded indexing of the
empty list at position 0, i.e. the loop step panics. -/
def ClaimNine : Prop :=
  ∀ (fs : FS) (M : MatchFn) (c : Char) (st : AppState),
    (filterPaths M c st).items = [] →
    (filterPaths M c st).sel = some 0 ∧
    loopStep fs M .enter (filterPaths M c st) = none

/-- Matcher that matches nothing; used for concrete instances where the
fuzzy matcher is irrelevant. -/
def noMatch : MatchFn := fun _ _ => none

/-- Base concrete application state used by the concrete instances below:
empty list, no selection, empty query, current directory the canonical
root directory of the instance filesystems. -/
def baseSt : AppState := {
  shouldExit := false
  items := []
  sel := none
  currentDir := "/r"
  outCwd := "/r"
  outCommand := "no-op"
  outItems := []
  filterString := ""
  pattern := none
  errLog := [] }

/-- Matcher for the C1 counterexample: under query a, name B outscores name
A; under query ab, both names match with equal score. -/
def c1M : MatchFn := fun q s =>
  if q = "a" then
    (if s = "A" then some (1, []) else if s = "B" then some (2, []) else none)
  else if q = "ab" then
    (if s = "A" then some (5, []) else if s = "B" then some (5, []) else none)
  else none

/-- Full directory listing for the C1 counterexample, in listing order. -/
def c1Full : List Entry := [⟨"A", .File, []⟩, ⟨"B", .File, []⟩]

/-- State for the C1 counterexample: query a already applied, so the
displayed list is the score-ordered result of filtering c1Full with a. -/
def c1St : AppState := { baseSt with
  items := [⟨"B", .File, []⟩, ⟨"A", .File, []⟩]
  sel := some 0
  filterString := "a"
  pattern := some "a" }

/-- Matcher for the C1 amended witness: everything matches with score 0. -/
def c1wM : MatchFn := fun _ _ => some (0, [])

/-- State for the C1 amended witness. -/
def c1wSt : AppState := { baseSt with items := [⟨"x", .File, []⟩] }

/-- Filesystem for the C2 counterexample: the path b canonicalizes to
itself but no directory can be listed. -/
def c2fs : FS := {
  canon := fun s => if s = "/b" then some "/b" else none
  children := fun _ => none
  parent := fun _ => none }

/-- Filesystem for the C2 amended witness third part: the path b
canonicalizes to itself and lists one child. -/
def c2fsB : FS := {
  canon := fun s => if s = "/b" then some "/b" else none
  children := fun s => if s = "/b" then some [("f", .File)] else none
  parent := fun _ => none }

/-- Filesystem for the C3 instances: every path canonicalizes to itself and
the root directory lists two files. -/
def c3fs : FS := {
  canon := fun s => some s
  children := fun s => if s = "/r" then some [("f", .File), ("g", .File)] else none
  parent := fun _ => none }

/-- State for the C3 counterexample: an active query x whose filtered list
shows one File entry, selected. -/
def c3St : AppState := { baseSt with
  items := [⟨"f", .File, [0]⟩]
  sel := some 0
  filterString := "x"
  pattern := some "x" }

/-- State actually produced by the Right key from c3St: directory unchanged
but the filter cleared, the list rebuilt from the full listing and the
selection reset. -/
def c3Res : AppState := { baseSt with
  items := [⟨"f", .File, []⟩, ⟨"g", .File, []⟩]
  sel := some 0 }

/-- Filesystem for the C4 counterexample: one root directory with a single
file child. -/
def c4fs : FS := {
  canon := fun s => if s = "/r" then some "/r" else none
  children := fun s => if s = "/r" then some [("a", .File)] else none
  parent := fun _ => none }

/-- The session-start state over c4fs: one entry and no selection. -/
def c4St0 : AppState := { baseSt with items := [⟨"a", .File, []⟩] }

/-- State for the C5 counterexample: two entries, no selection. -/
def c5St : AppState := { baseSt with
  items := [⟨"a", .File, []⟩, ⟨"b", .File, []⟩] }

/-- State observed after pressing Up from c5St: the last index, not the
first. -/
def c5Res : AppState := { c5St with sel := some 1 }

/-- Filesystem for the C6 instances: every filesystem operation fails. -/
def c6fs : FS := {
  canon := fun _ => none
  children := fun _ => none
  parent := fun _ => none }

/-- State for the C6 counterexample: one entry displayed, no selection,
empty error log. -/
def c6St : AppState := { baseSt with items := [⟨"a", .File, []⟩] }

/-- State left by the Esc key from c6St over c6fs: the listing failure is
swallowed, the log stays empty. -/
def c6Res : AppState := { baseSt with items := [⟨"a", .File, []⟩], sel := some 0 }

/-- State for the C6 amended witness: one entry displayed and selected, so a
propagated error is logged with the real selected name, not the sentinel. -/
def c6wSt : AppState := { baseSt with items := [⟨"a", .File, []⟩], sel := some 0 }

/-- State for the C6 amended witness Right-arm part: a Directory entry is
selected, so the Right key attempts a cd that fails over c6fs. -/
def c6wDir : AppState :=
  { baseSt with items := [⟨"d", .Directory, []⟩], sel := some 0 }

/-- listLeCh is total. -/
theorem listLeCh_total : ∀ as bs : List Char, listLeCh as bs = true ∨ listLeCh bs as = true
  | [], _ => Or.inl rfl
  | _ :: _, [] => Or.inr rfl
  | a :: as, b :: bs => by
    by_cases h1 : a.toNat < b.toNat
    · left; simp [listLeCh, h1]
    · by_cases h2 : b.toNat < a.toNat
      · right; simp [listLeCh, h2, h1]
      · have ih := listLeCh_total as bs
        simpa [listLeCh, h1, h2] using ih

/-- listLeCh is transitive. -/
theorem listLeCh_trans : ∀ as bs cs : List Char,
    listLeCh as bs = true → listLeCh bs cs = true → listLeCh as cs = true
  | [], _, _ => fun _ _ => rfl
  | _ :: _, [], _ => fun h _ => by simp [listLeCh] at h
  | _ :: _, _ :: _, [] => fun _ h => by simp [listLeCh] at h
  | a :: as, b :: bs, c :: cs => by
    intro h1 h2
    simp only [listLeCh] at h1 h2 ⊢
    rcases Nat.lt_trichotomy a.toNat b.toNat with hab | hab | hab
    · rcases Nat.lt_trichotomy b.toNat c.toNat with hbc | hbc | hbc
      · simp [show a.toNat < c.toNat by omega]
      · simp [show a.toNat < c.toNat by omega]
      · rw [if_neg (by omega), if_pos hbc] at h2; cases h2
    · rw [if_neg (by omega), if_neg (by omega)] at h1
      rcases Nat.lt_trichotomy b.toNat c.toNat with hbc | hbc | hbc
      · simp [show a.toNat < c.toNat by omega]
      · rw [if_neg (by omega), if_neg (by omega)] at h2
        rw [if_neg (by omega), if_neg (by omega)]
        exact listLeCh_trans as bs cs h1 h2
      · rw [if_neg (by omega), if_pos hbc] at h2; cases h2
    · rw [if_neg (by omega), if_pos hab] at h1; cases h1

/-- Characters with equal scalar values are equal. -/
theorem char_eq_of_toNat_eq {a b : Char} (h : a.toNat = b.toNat) : a = b :=
  Char.ext (UInt32.ext h)

/-- A non-strict comparison between distinct sequences is strict. -/
theorem listLtCh_of_le_of_ne : ∀ as bs : List Char,
    listLeCh as bs = true → as ≠ bs → listLtCh as bs = true
  | [], [] => fun _ h => absurd rfl h
  | [], _ :: _ => fun _ _ => rfl
  | _ :: _, [] => fun h _ => by simp [listLeCh] at h
  | a :: as, b :: bs => by
    intro h hne
    simp only [listLeCh, listLtCh] at h ⊢
    by_cases hab : a.toNat < b.toNat
    · simp [hab]
    · by_cases hba : b.toNat < a.toNat
      · simp [hab, hba] at h
      · have heq : a = b := char_eq_of_toNat_eq (by omega)
        simp only [if_neg hab, if_neg hba] at h ⊢
        exact listLtCh_of_le_of_ne as bs h
          (fun hh => hne (by rw [heq, hh]))

/-- Distinct names that compare non-strictly compare strictly. -/
theorem strLt_of_strLe_of_ne {a b : String} (h1 : strLe a b = true)
    (h2 : a ≠ b) : strLt a b = true :=
  listLtCh_of_le_of_ne a.data b.data h1
    (fun hd => h2 (by cases a; cases b; cases hd; rfl))

/-- Rendering never changes the displayed items. -/
theorem draw_items (st : AppState) : (draw st).items = st.items := by
  unfold draw; split <;> rfl

/-- Rendering never changes the current directory. -/
theorem draw_currentDir (st : AppState) : (draw st).currentDir = st.currentDir := by
  unfold draw; split <;> rfl

/-- Rendering never changes the query. -/
theorem draw_filterString (st : AppState) : (draw st).filterString = st.filterString := by
  unfold draw; split <;> rfl

/-- Rendering never changes the error log. -/
theorem draw_errLog (st : AppState) : (draw st).errLog = st.errLog := by
  unfold draw; split <;> rfl

/-- Rendering never changes the quit flag. -/
theorem draw_shouldExit (st : AppState) : (draw st).shouldExit = st.shouldExit := by
  unfold draw; split <;> rfl

/-- Rendering never changes the output command. -/
theorem draw_outCommand (st : AppState) : (draw st).outCommand = st.outCommand := by
  unfold draw; split <;> rfl

/-- Rendering never changes the output items. -/
theorem draw_outItems (st : AppState) : (draw st).outItems = st.outItems := by
  unfold draw; split <;> rfl

/-- Rendering a non-empty list clamps the selection to the last index. -/
theorem draw_sel_of_ne (st : AppState) (h : st.items ≠ []) :
    (draw st).sel = st.sel.map fun s => min s (st.items.length - 1) := by
  rcases h' : st.items with _ | ⟨a, t⟩
  · exact absurd h' h
  · simp [draw, h']

/-- Rendering preserves an absent selection. -/
theorem draw_sel_none (st : AppState) (h : st.sel = none) : (draw st).sel = none := by
  unfold draw; split <;> simp [h]

/-- Rendering an empty list resets the selection to None and changes
nothing else. -/
theorem draw_of_empty (st : AppState) (h : st.items = []) :
    draw st = { st with sel := none } := by
  unfold draw; split
  · rfl
  · rename_i a t h2; rw [h] at h2; cases h2

/-- Every entry surviving a filter pass comes from the input list, with its
name and kind preserved. -/
theorem mem_runFilter {M : MatchFn} {q : String} {items : List Entry} {e : Entry}
    (h : e ∈ runFilter M q items) :
    ∃ e0 ∈ items, e0.value = e.value ∧ e0.kind = e.kind := by
  unfold runFilter at h
  simp only [List.mem_map] at h
  obtain ⟨t, ht, rfl⟩ := h
  have ht2 := ((List.perm_insertionSort scoreDesc _).mem_iff).mp ht
  rw [List.mem_filterMap] at ht2
  obtain ⟨e0, he0, hmap⟩ := ht2
  rcases hM : M q e0.value with _ | r
  · rw [hM] at hmap; cases hmap
  · rw [hM] at hmap
    simp only [Option.map_some'] at hmap
    have hmap2 := Option.some.inj hmap
    refine ⟨e0, he0, ?_, ?_⟩ <;> rw [← hmap2]

/-- C8: for every directory whose children the filesystem can enumerate,
with the real-directory property that child names are distinct, list()
returns exactly those children (hidden entries included, as a permutation
of the true child set) in strictly ascending byte-wise order of name. -/
theorem c8_list_sorted_and_complete (fs : FS) (d : String)
    (es : List (String × ObjectType)) (h : fs.children d = some es)
    (hnd : (es.map Prod.fst).Nodup) :
    ∃ l, listDirectory fs d = .ok l ∧
      l.Pairwise (fun a b => strLt a.1 b.1 = true) ∧ l.Perm es := by
  have hperm : (sortByName es).Perm es := List.perm_insertionSort _ _
  refine ⟨sortByName es, by simp [listDirectory, h], ?_, hperm⟩
  have hsort : (sortByName es).Pairwise nameLe := by
    letI : IsTotal (String × ObjectType) nameLe :=
      ⟨fun a b => listLeCh_total a.1.data b.1.data⟩
    letI : IsTrans (String × ObjectType) nameLe :=
      ⟨fun a b c h1 h2 => listLeCh_trans a.1.data b.1.data c.1.data h1 h2⟩
    exact List.sorted_insertionSort nameLe es
  have hnd2 : ((sortByName es).map Prod.fst).Nodup :=
    ((hperm.map Prod.fst).nodup_iff).mpr hnd
  have hne : (sortByName es).Pairwise (fun a b => a.1 ≠ b.1) :=
    List.pairwise_map.mp hnd2
  exact (hsort.and hne).imp fun h => strLt_of_strLe_of_ne h.1 h.2

/-- Witness for C8 at a concrete two-child directory. -/
theorem c8_witness :
    c2fsB.children "/b" = some [("f", ObjectType.File)] ∧
    ([("f", ObjectType.File)].map Prod.fst).Nodup ∧
    ∃ l, listDirectory c2fsB "/b" = .ok l ∧
      l.Pairwise (fun a b => strLt a.1 b.1 = true) ∧
      l.Perm [("f", ObjectType.File)] :=
  ⟨rfl, by decide, c8_list_sorted_and_complete c2fsB "/b" _ rfl (by decide)⟩

/-- C1 is false on the code: filter_paths re-matches the previously
displayed (already filtered) list, and for a matcher that ties the scores
of the extended query the stable sort preserves the previous score order
instead of the full-listing order. -/
theorem c1_counterexample : ¬ ClaimOne := by
  intro h
  have h2 := h c1M c1St 'b' c1Full (by decide) (by decide)
  exact absurd h2 (by decide)

/-- C1 amended: the printable-character transition recomputes the pattern
from the full query but applies it to the currently displayed list, so
every entry displayed after the keystroke comes from the previously
displayed entries, with name and kind preserved; equality with a recompute
from the full listing fails in general. -/
theorem c1_filter_from_displayed (M : MatchFn) (c : Char) (st : AppState)
    (e : Entry) (h : e ∈ (filterPaths M c st).items) :
    ∃ e0 ∈ st.items, e0.value = e.value ∧ e0.kind = e.kind :=
  mem_runFilter h

/-- Witness for the amended C1 at a concrete one-entry state. -/
theorem c1_filter_from_displayed_witness :
    (⟨"x", ObjectType.File, []⟩ : Entry) ∈ (filterPaths c1wM 'a' c1wSt).items ∧
    ∃ e0 ∈ c1wSt.items, e0.value = "x" ∧ e0.kind = ObjectType.File :=
  ⟨by decide, c1_filter_from_displayed c1wM 'a' c1wSt ⟨"x", ObjectType.File, []⟩ (by decide)⟩

/-- C2 is false on the code: when canonicalization succeeds but listing the
new directory fails, Explorer::cd has already replaced the owned path and
still returns the error. -/
theorem c2_counterexample : ¬ ClaimTwo := by
  intro h
  have h2 := h c2fs ⟨"/a"⟩ "/b" .ioError (by decide)
  exact absurd h2 (by decide)

/-- C2 amended: a canonicalization failure leaves the owned path unchanged
and returns the error; after a successful canonicalization the owned path
is replaced by the canonical target even when the subsequent listing
fails, and the listing result (or its error) is returned. -/
theorem c2_cd_commits_on_canon :
    (∀ (fs : FS) (ex : Explorer) (p : String), fs.canon p = none →
      Explorer.cd fs ex p = (ex, .error .ioError)) ∧
    (∀ (fs : FS) (ex : Explorer) (p cp : String), fs.canon p = some cp →
      fs.children cp = none →
      Explorer.cd fs ex p = (⟨cp⟩, .error .ioError)) ∧
    (∀ (fs : FS) (ex : Explorer) (p cp : String)
      (es : List (String × ObjectType)), fs.canon p = some cp →
      fs.children cp = some es →
      Explorer.cd fs ex p = (⟨cp⟩, .ok (sortByName es))) := by
  refine ⟨?_, ?_, ?_⟩
  · intro fs ex p h; simp [Explorer.cd, h]
  · intro fs ex p cp h1 h2; simp [Explorer.cd, Explorer.ls, listDirectory, h1, h2]
  · intro fs ex p cp es h1 h2; simp [Explorer.cd, Explorer.ls, listDirectory, h1, h2]

/-- Witness for the amended C2 at concrete filesystems. -/
theorem c2_cd_commits_on_canon_witness :
    c2fs.canon "/a" = none ∧
    Explorer.cd c2fs ⟨"/r"⟩ "/a" = (⟨"/r"⟩, .error .ioError) ∧
    c2fs.canon "/b" = some "/b" ∧ c2fs.children "/b" = none ∧
    Explorer.cd c2fs ⟨"/r"⟩ "/b" = (⟨"/b"⟩, .error .ioError) ∧
    c2fsB.canon "/b" = some "/b" ∧
    c2fsB.children "/b" = some [("f", ObjectType.File)] ∧
    Explorer.cd c2fsB ⟨"/r"⟩ "/b" =
      (⟨"/b"⟩, .ok (sortByName [("f", ObjectType.File)])) :=
  ⟨rfl, c2_cd_commits_on_canon.1 c2fs ⟨"/r"⟩ "/a" rfl,
   rfl, rfl, c2_cd_commits_on_canon.2.1 c2fs ⟨"/r"⟩ "/b" "/b" rfl rfl,
   rfl, rfl, c2_cd_commits_on_canon.2.2 c2fsB ⟨"/r"⟩ "/b" "/b" [("f", ObjectType.File)] rfl rfl⟩

/-- Selection after rendering a non-empty list with a present selection. -/
theorem sel_after_draw (x : AppState) (hx : x.items ≠ []) (j : Nat)
    (hj : x.sel = some j) :
    (draw x).sel = some (min j (x.items.length - 1)) := by
  rw [draw_sel_of_ne x hx, hj]; rfl

/-- select_next from a present selection. -/
theorem selectNext_sel_some (x : AppState) (j : Nat) (h : x.sel = some j) :
    (selectNext x).sel = some (min (j + 1) USIZE_MAX) := by
  simp [selectNext, h]

/-- select_next from an absent selection. -/
theorem selectNext_sel_none (x : AppState) (h : x.sel = none) :
    (selectNext x).sel = some 0 := by
  simp [selectNext, h]

/-- select_previous from a present selection. -/
theorem selectPrevious_sel_some (x : AppState) (j : Nat) (h : x.sel = some j) :
    (selectPrevious x).sel = some (j - 1) := by
  simp [selectPrevious, h]

/-- select_previous from an absent selection. -/
theorem selectPrevious_sel_none (x : AppState) (h : x.sel = none) :
    (selectPrevious x).sel = some USIZE_MAX := by
  simp [selectPrevious, h]

/-- Items are unchanged by draw-then-select_next. -/
theorem items_dn (st : AppState) : (selectNext (draw st)).items = st.items :=
  draw_items st

/-- Items are unchanged by draw-then-select_previous. -/
theorem items_dp (st : AppState) : (selectPrevious (draw st)).items = st.items :=
  draw_items st

/-- The Down transition is render, select_next, render. -/
theorem afterKey_down_eq (fs : FS) (M : MatchFn) (st : AppState) :
    afterKey fs M .down st = some (draw (selectNext (draw st))) := rfl

/-- The Up transition is render, select_previous, render. -/
theorem afterKey_up_eq (fs : FS) (M : MatchFn) (st : AppState) :
    afterKey fs M .up st = some (draw (selectPrevious (draw st))) := rfl

/-- C3 is false on the code: the Right key arm runs clear_filter after the
File-selected no-op enter_directory, clearing the query, rebuilding the
list from the full listing and resetting the selection. -/
theorem c3_counterexample : ¬ ClaimThree := by
  intro h
  have h2 := h c3fs noMatch c3St 0 ⟨"f", .File, [0]⟩ c3Res
    (by decide) (by decide) (by decide) (by decide)
  exact absurd h2.2.1 (by decide)

/-- C3 amended: with a File entry selected, the Right key leaves the current
directory unchanged but clears the query and pattern, replaces the entry
list by the full (re-fetched) listing and selects the first entry. -/
theorem c3_right_on_file_clears_filter (fs : FS) (M : MatchFn) (st : AppState)
    (i : Nat) (e : Entry) (es : List (String × ObjectType))
    (h1 : st.sel = some i) (h2 : st.items.get? i = some e)
    (h3 : e.kind = .File) (h4 : fs.children st.currentDir = some es) :
    handleKey fs M .right st =
      some ({ st with
                filterString := ""
                pattern := none
                items := fromIter (sortByName es)
                sel := some 0 }, none) := by
  have he : enterDirectory fs st = some (st, none) := by
    unfold enterDirectory
    simp only [h1, h2, h3]
  have hc : clearFilter fs st =
      { st with
          filterString := ""
          pattern := none
          items := fromIter (sortByName es)
          sel := some 0 } := by
    unfold clearFilter listDirectory
    simp only [h4]
  simp only [handleKey, he, hc]

/-- Witness for the amended C3 at a concrete state. -/
theorem c3_right_on_file_clears_filter_witness :
    c3St.sel = some 0 ∧
    c3St.items.get? 0 = some ⟨"f", ObjectType.File, [0]⟩ ∧
    c3fs.children c3St.currentDir = some [("f", .File), ("g", .File)] ∧
    handleKey c3fs noMatch .right c3St =
      some ({ c3St with
                filterString := ""
                pattern := none
                items := fromIter (sortByName [("f", .File), ("g", .File)])
                sel := some 0 }, none) :=
  ⟨rfl, rfl, rfl,
   c3_right_on_file_clears_filter c3fs noMatch c3St 0 ⟨"f", .File, [0]⟩ _
     rfl rfl rfl rfl⟩

/-- C4 is false on the code: at session start the selection is None while
the entry list is non-empty, because PathList::from_iter leaves the default
(empty) ListState and main never selects. -/
theorem c4_counterexample : ¬ ClaimFour := by
  intro h
  have h2 := h c4fs noMatch "/r" c4St0 c4St0 (by decide) (.refl _)
  exact absurd (h2.1.mp rfl) (by decide)

/-- C4 amended: the stated invariant fails in both directions (None
selection with non-empty list at session start, Some 0 selection with an
empty list after filtering), but whenever the list is non-empty a present
selection is a valid index at the moment a key is handled, i.e. after the
render that precedes reading the key. -/
theorem c4_selection_valid_after_render (st : AppState) (h : st.items ≠ [])
    (i : Nat) (hi : (draw st).sel = some i) : i < st.items.length := by
  rw [draw_sel_of_ne st h] at hi
  rcases hsel : st.sel with _ | j
  · rw [hsel] at hi; cases hi
  · rw [hsel] at hi
    simp only [Option.map_some'] at hi
    have h2 := Option.some.inj hi
    have hL : st.items.length ≠ 0 := fun hh => h (List.eq_nil_of_length_eq_zero hh)
    omega

/-- Witness for the amended C4 at a concrete out-of-bounds selection. -/
theorem c4_selection_valid_after_render_witness :
    c5Res.items ≠ [] ∧ (draw c5Res).sel = some 1 ∧ 1 < c5Res.items.length :=
  ⟨by decide, by decide, c4_selection_valid_after_render c5Res (by decide) 1 (by decide)⟩

/-- C5 is false on the code: pressing Up with no selection sets the ratatui
selection to usize::MAX, which the next render clamps to the last index,
so select_previous from None behaves as select_last, not select_first. -/
theorem c5_counterexample : ¬ ClaimFive := by
  intro h
  obtain ⟨st2, hA, hB⟩ := ((h c4fs noMatch c5St (by decide)).2.2.1 rfl).2
  have hC : afterKey c4fs noMatch Key.up c5St = some c5Res := by decide
  rw [hC] at hA
  cases hA
  exact absurd hB (by decide)

/-- C5 amended: as observed at the next render, Down and Up from a valid
selection move one step, clamped at the last and first index with no
wraparound; from a None selection Down behaves as select_first but Up
behaves as select_last; and Down then Up from index 0 returns to 0. -/
theorem c5_clamped_navigation (fs : FS) (M : MatchFn) (st : AppState)
    (hne : st.items ≠ []) (hlen : st.items.length ≤ USIZE_MAX) :
    (∀ i, st.sel = some i → i < st.items.length →
      ∃ st2, afterKey fs M .down st = some st2 ∧
        st2.sel = some (min (i + 1) (st.items.length - 1))) ∧
    (∀ i, st.sel = some i → i < st.items.length →
      ∃ st2, afterKey fs M .up st = some st2 ∧ st2.sel = some (i - 1)) ∧
    (st.sel = none → ∃ st2, afterKey fs M .down st = some st2 ∧ st2.sel = some 0) ∧
    (st.sel = none → ∃ st2, afterKey fs M .up st = some st2 ∧
      st2.sel = some (st.items.length - 1)) ∧
    (st.sel = some 0 → ∀ st2, afterKey fs M .down st = some st2 →
      ∃ st3, afterKey fs M .up st2 = some st3 ∧ st3.sel = some 0) := by
  have hmax : USIZE_MAX = 18446744073709551615 := by norm_num [USIZE_MAX]
  have hL0 : st.items.length ≠ 0 := fun hh => hne (List.eq_nil_of_length_eq_zero hh)
  have hne2 : (selectNext (draw st)).items ≠ [] := by rw [items_dn]; exact hne
  have hne3 : (selectPrevious (draw st)).items ≠ [] := by rw [items_dp]; exact hne
  refine ⟨?_, ?_, ?_, ?_, ?_⟩
  · intro i hsel hi
    refine ⟨_, afterKey_down_eq fs M st, ?_⟩
    have e1 : (draw st).sel = some i := by
      rw [sel_after_draw st hne i hsel]
      congr 1
      omega
    have e2 := selectNext_sel_some (draw st) i e1
    have e4 := sel_after_draw _ hne2 _ e2
    rw [e4, items_dn]
    congr 1
    rw [hmax] at hlen ⊢
    omega
  · intro i hsel hi
    refine ⟨_, afterKey_up_eq fs M st, ?_⟩
    have e1 : (draw st).sel = some i := by
      rw [sel_after_draw st hne i hsel]
      congr 1
      omega
    have e2 := selectPrevious_sel_some (draw st) i e1
    have e4 := sel_after_draw _ hne3 _ e2
    rw [e4, items_dp]
    congr 1
    omega
  · intro hsel
    refine ⟨_, afterKey_down_eq fs M st, ?_⟩
    have e1 : (draw st).sel = none := draw_sel_none st hsel
    have e2 := selectNext_sel_none (draw st) e1
    have e4 := sel_after_draw _ hne2 _ e2
    rw [e4, items_dn]
    congr 1
    omega
  · intro hsel
    refine ⟨_, afterKey_up_eq fs M st, ?_⟩
    have e1 : (draw st).sel = none := draw_sel_none st hsel
    have e2 := selectPrevious_sel_none (draw st) e1
    have e4 := sel_after_draw _ hne3 _ e2
    rw [e4, items_dp]
    congr 1
    rw [hmax] at hlen ⊢
    omega
  · intro hsel st2 hst2
    have he : st2 = draw (selectNext (draw st)) := by
      rw [afterKey_down_eq] at hst2
      exact (Option.some.inj hst2).symm
    subst he
    refine ⟨_, afterKey_up_eq fs M _, ?_⟩
    have e1 : (draw st).sel = some 0 := by
      rw [sel_after_draw st hne 0 hsel]
      congr 1
      omega
    have e2 := selectNext_sel_some (draw st) 0 e1
    have e4 := sel_after_draw _ hne2 _ e2
    -- the state observed after Down
    set st2 := draw (selectNext (draw st)) with hst2def
    have hit2 : st2.items = st.items := by rw [hst2def, draw_items, items_dn]
    have hne4 : st2.items ≠ [] := by rw [hit2]; exact hne
    have hne5 : (selectPrevious (draw st2)).items ≠ [] := by rw [items_dp]; exact hne4
    have f2 := sel_after_draw st2 hne4 _ e4
    have f3 := selectPrevious_sel_some (draw st2) _ f2
    have f4 := sel_after_draw _ hne5 _ f3
    rw [f4, items_dp, hit2]
    congr 1
    rw [hmax] at hlen ⊢
    omega

/-- Witness for the amended C5 at a concrete two-entry state. -/
theorem c5_clamped_navigation_witness :
    c5Res.items ≠ [] ∧ c5Res.items.length ≤ USIZE_MAX ∧
    (∃ st2, afterKey c4fs noMatch .up c5Res = some st2 ∧ st2.sel = some 0) :=
  ⟨by decide, by decide,
   (c5_clamped_navigation c4fs noMatch c5Res (by decide) (by decide)).2.1
     1 rfl (by decide)⟩

/-- C6 is false on the code: the Esc handler fetches the listing with an
if-let-Ok and silently discards the error, so a listing failure during the
Esc transition leaves the error log unchanged. -/
theorem c6_counterexample : ¬ ClaimSix := by
  intro h
  obtain ⟨n, err, hE⟩ := h c6fs noMatch .esc c6St c6Res rfl rfl (by decide)
  have hlen := congrArg List.length hE
  simp [c6Res, c6St, baseSt] at hlen

/-- C6 amended: every error returned by handle_key to App::run -- those the
Right and Left arms propagate from Explorer::cd, whether canonicalization
or the listing of the new directory failed -- is appended to the session
error log paired with the key pressed and the name of the entry selected
after the transition (the sentinel string when nothing is selected), and
the loop continues; while ls() failures inside the Esc and Backspace
handlers are silently swallowed: those transitions complete with the error
log unchanged. -/
theorem c6_error_logging :
    (∀ (fs : FS) (M : MatchFn) (k : Key) (st st1 : AppState)
      (err : ExplorerError) (n : String),
      handleKey fs M k (draw st) = some (st1, some err) →
      selNameAccess st1 = some n →
      loopStep fs M k st = some { st1 with errLog := st1.errLog ++ [⟨k, n, err⟩] }) ∧
    (∀ (fs : FS) (M : MatchFn) (st : AppState) (i : Nat) (e : Entry)
      (err : ExplorerError),
      st.sel = some i → st.items.get? i = some e → e.kind = .Directory →
      (Explorer.cd fs ⟨st.currentDir⟩ (st.currentDir ++ "/" ++ e.value)).2
        = .error err →
      handleKey fs M .right st =
        some ({ st with currentDir :=
          (Explorer.cd fs ⟨st.currentDir⟩
            (st.currentDir ++ "/" ++ e.value)).1.current_dir }, some err)) ∧
    (∀ (fs : FS) (M : MatchFn) (st : AppState) (err : ExplorerError),
      (Explorer.cd fs ⟨st.currentDir⟩
        ((fs.parent st.currentDir).getD st.currentDir)).2 = .error err →
      handleKey fs M .left st =
        some ({ st with currentDir :=
          (Explorer.cd fs ⟨st.currentDir⟩
            ((fs.parent st.currentDir).getD st.currentDir)).1.current_dir },
          some err)) ∧
    (∀ (fs : FS) (M : MatchFn) (st : AppState),
      fs.children (draw st).currentDir = none →
      loopStep fs M .esc st =
        some { draw st with
                 filterString := ""
                 pattern := none
                 sel := some 0 }) ∧
    (∀ (fs : FS) (M : MatchFn) (st : AppState),
      fs.children (draw st).currentDir = none →
      loopStep fs M .backspace st = some (removeLastCharFromFilter fs M (draw st)) ∧
      (removeLastCharFromFilter fs M (draw st)).errLog = st.errLog ∧
      (removeLastCharFromFilter fs M (draw st)).items = (draw st).items ∧
      (removeLastCharFromFilter fs M (draw st)).shouldExit = st.shouldExit) := by
  refine ⟨?_, ?_, ?_, ?_, ?_⟩
  · intro fs M k st st1 err n h1 h2
    unfold loopStep
    simp only [h1, h2]
  · intro fs M st i e err h1 h2 h3 h4
    rcases hcd : Explorer.cd fs ⟨st.currentDir⟩ (st.currentDir ++ "/" ++ e.value)
      with ⟨ex, res⟩
    rw [hcd] at h4
    have h4' : res = .error err := h4
    subst h4'
    simp only [handleKey, enterDirectory, h1, h2, h3, hcd]
  · intro fs M st err h4
    rcases hcd : Explorer.cd fs ⟨st.currentDir⟩
        ((fs.parent st.currentDir).getD st.currentDir) with ⟨ex, res⟩
    rw [hcd] at h4
    have h4' : res = .error err := h4
    subst h4'
    simp only [handleKey, changeToParent, hcd]
  · intro fs M st h1
    have hcf : clearFilter fs (draw st) =
        { draw st with
            filterString := ""
            pattern := none
            sel := some 0 } := by
      unfold clearFilter listDirectory
      simp only [h1]
    simp only [loopStep, handleKey, hcf]
  · intro fs M st h1
    refine ⟨rfl, ?_, ?_, ?_⟩ <;>
      · unfold removeLastCharFromFilter listDirectory
        simp only [h1]
        split <;> simp [draw_errLog, draw_shouldExit]

/-- Witness for the amended C6 over the all-failing filesystem: a propagated
Left-arm failure is logged with the real selected name, the Right arm with
a Directory selection propagates its cd error, and the Esc and Backspace
listing failures are swallowed. -/
theorem c6_error_logging_witness :
    handleKey c6fs noMatch Key.left (draw c6wSt)
      = some (c6wSt, some ExplorerError.ioError) ∧
    selNameAccess c6wSt = some "a" ∧
    loopStep c6fs noMatch Key.left c6wSt =
      some { c6wSt with errLog :=
        c6wSt.errLog ++ [⟨Key.left, "a", ExplorerError.ioError⟩] } ∧
    c6wDir.sel = some 0 ∧
    c6wDir.items.get? 0 = some ⟨"d", ObjectType.Directory, []⟩ ∧
    (Explorer.cd c6fs ⟨c6wDir.currentDir⟩
      (c6wDir.currentDir ++ "/" ++ "d")).2 = .error ExplorerError.ioError ∧
    handleKey c6fs noMatch .right c6wDir =
      some ({ c6wDir with currentDir :=
        (Explorer.cd c6fs ⟨c6wDir.currentDir⟩
          (c6wDir.currentDir ++ "/" ++ "d")).1.current_dir },
        some ExplorerError.ioError) ∧
    c6fs.children (draw baseSt).currentDir = none ∧
    loopStep c6fs noMatch Key.esc baseSt =
      some { draw baseSt with
               filterString := ""
               pattern := none
               sel := some 0 } ∧
    loopStep c6fs noMatch Key.backspace baseSt
      = some (removeLastCharFromFilter c6fs noMatch (draw baseSt)) ∧
    (removeLastCharFromFilter c6fs noMatch (draw baseSt)).errLog = baseSt.errLog :=
  ⟨by decide, by decide,
   c6_error_logging.1 c6fs noMatch Key.left c6wSt c6wSt ExplorerError.ioError "a"
     (by decide) (by decide),
   rfl, rfl, rfl,
   c6_error_logging.2.1 c6fs noMatch c6wDir 0 ⟨"d", ObjectType.Directory, []⟩
     ExplorerError.ioError rfl rfl rfl rfl,
   rfl,
   (c6_error_logging.2.2.2.1 c6fs noMatch baseSt rfl),
   (c6_error_logging.2.2.2.2 c6fs noMatch baseSt rfl).1,
   (c6_error_logging.2.2.2.2 c6fs noMatch baseSt rfl).2.1⟩

/-- C7: pressing the Commit key with no selection has no effect: the output
command, the output items and the terminated flag keep their prior values
and the loop proceeds to the next iteration. -/
theorem c7_commit_without_selection (fs : FS) (M : MatchFn) (st : AppState)
    (h : st.sel = none) :
    loopStep fs M .enter st = some (draw st) ∧
    (draw st).outCommand = st.outCommand ∧
    (draw st).outItems = st.outItems ∧
    (draw st).shouldExit = st.shouldExit := by
  refine ⟨?_, draw_outCommand st, draw_outItems st, draw_shouldExit st⟩
  have h2 : (draw st).sel = none := draw_sel_none st h
  have hu : updateCommand "do-thing" true (draw st) = some (draw st) := by
    unfold updateCommand
    simp only [h2]
  simp only [loopStep, handleKey, hu]

/-- Witness for C7 at a concrete state. -/
theorem c7_commit_without_selection_witness :
    c4St0.sel = none ∧
    loopStep c4fs noMatch .enter c4St0 = some (draw c4St0) ∧
    (draw c4St0).outCommand = c4St0.outCommand ∧
    (draw c4St0).outItems = c4St0.outItems ∧
    (draw c4St0).shouldExit = c4St0.shouldExit :=
  ⟨rfl, c7_commit_without_selection c4fs noMatch c4St0 rfl⟩

/-- C9 is false on the code: after filtering to an empty list the selection
is indeed left at Some 0, but the render preceding the next key resets the
selection of an empty item list to None, so the following Commit key press
takes the guarded no-selection branch instead of indexing the empty
list. -/
theorem c9_counterexample : ¬ ClaimNine := by
  intro h
  have h2 := (h c4fs noMatch 'x' baseSt (by decide)).2
  exact absurd h2 (by decide)

/-- C9 amended: a printable-character transition that filters the list to
zero entries leaves the selection at Some 0 on the empty list, and the
commit transition's indexing is not bounds-checked: applied to that raw
state, update_command indexes the empty list at 0 out of bounds (the
modelled panic).  But the render that precedes reading the next key resets
the selection of an empty list to None, so a following Commit key press is
a no-op: the loop step succeeds with the rendered state unchanged and the
output and termination flag keep their prior values. -/
theorem c9_commit_after_empty_filter (fs : FS) (M : MatchFn) (c : Char)
    (st : AppState) (h : (filterPaths M c st).items = []) :
    (filterPaths M c st).sel = some 0 ∧
    updateCommand "do-thing" true (filterPaths M c st) = none ∧
    draw (filterPaths M c st) = { filterPaths M c st with sel := none } ∧
    loopStep fs M .enter (filterPaths M c st) =
      some { filterPaths M c st with sel := none } ∧
    ({ filterPaths M c st with sel := none } : AppState).outCommand
      = st.outCommand ∧
    ({ filterPaths M c st with sel := none } : AppState).shouldExit
      = st.shouldExit := by
  have hsel : (filterPaths M c st).sel = some 0 := rfl
  have hd : draw (filterPaths M c st) = { filterPaths M c st with sel := none } :=
    draw_of_empty _ h
  refine ⟨rfl, ?_, hd, ?_, rfl, rfl⟩
  · unfold updateCommand
    simp only [hsel, h, List.get?]
  · have hu : updateCommand "do-thing" true
        ({ filterPaths M c st with sel := none } : AppState) =
        some { filterPaths M c st with sel := none } := rfl
    unfold loopStep
    rw [hd]
    simp only [handleKey, hu]

/-- Witness for the amended C9: filtering an empty directory with any
character leaves no entries; the raw commit indexing would panic, the
rendered commit is a no-op. -/
theorem c9_commit_after_empty_filter_witness :
    (filterPaths noMatch 'x' baseSt).items = [] ∧
    ((filterPaths noMatch 'x' baseSt).sel = some 0 ∧
     updateCommand "do-thing" true (filterPaths noMatch 'x' baseSt) = none ∧
     draw (filterPaths noMatch 'x' baseSt)
       = { filterPaths noMatch 'x' baseSt with sel := none } ∧
     loopStep c4fs noMatch .enter (filterPaths noMatch 'x' baseSt) =
       some { filterPaths noMatch 'x' baseSt with sel := none } ∧
     ({ filterPaths noMatch 'x' baseSt with sel := none } : AppState).outCommand
       = baseSt.outCommand ∧
     ({ filterPaths noMatch 'x' baseSt with sel := none } : AppState).shouldExit
       = baseSt.shouldExit) :=
  ⟨by decide, c9_commit_after_empty_filter c4fs noMatch 'x' baseSt (by decide)⟩

/-- C10: Backspace with an already empty query is not a no-op: it re-fetches
the full directory listing, rebuilds the entry list from it (all match
metadata discarded), clears the stored pattern and resets the selection to
the first entry. -/
theorem c10_backspace_on_empty_query (fs : FS) (M : MatchFn) (st : AppState)
    (es : List (String × ObjectType)) (h1 : st.filterString = "")
    (h2 : fs.children st.currentDir = some es) :
    handleKey fs M .backspace st =
      some ({ st with
                filterString := ""
                items := fromIter (sortByName es)
                pattern := none
                sel := some 0 }, none) ∧
    ∀ e ∈ fromIter (sortByName es), e.matchIndices = ([] : List Nat) := by
  constructor
  · have hq : popLast st.filterString = "" := by rw [h1]; rfl
    have hr : removeLastCharFromFilter fs M st =
        { st with
            filterString := ""
            items := fromIter (sortByName es)
            pattern := none
            sel := some 0 } := by
      have hie : ("" : String).isEmpty = true := by decide
      unfold removeLastCharFromFilter listDirectory
      simp [hq, h2, hie]
    simp only [handleKey, hr]
  · intro e he
    simp only [fromIter, List.mem_map] at he
    obtain ⟨p, _, rfl⟩ := he
    rfl

/-- Witness for C10 at a concrete two-child directory. -/
theorem c10_backspace_on_empty_query_witness :
    baseSt.filterString = "" ∧
    c3fs.children baseSt.currentDir = some [("f", .File), ("g", .File)] ∧
    handleKey c3fs noMatch .backspace baseSt =
      some ({ baseSt with
                filterString := ""
                items := fromIter (sortByName [("f", .File), ("g", .File)])
                pattern := none
                sel := some 0 }, none) ∧
    ∀ e ∈ fromIter (sortByName [("f", .File), ("g", .File)]),
      e.matchIndices = ([] : List Nat) :=
  ⟨rfl, rfl,
   c10_backspace_on_empty_query c3fs noMatch baseSt _ rfl rfl⟩

end Breeze
